import Mathlib

/-!
Shallow embedding of `src/demo_agent_system.py` (JPMC financial research
agent demo): the audit ledger (`AuditTrail`), the compliance validator
(`ComplianceCheck`), the three stage wrappers (`ResearchAgent`,
`AnalysisAgent`, `ComplianceAgent`) and the orchestrator workflow
(`AgentOrchestrator.research_investment`).

Modelling conventions:
* Python `float` is modelled as `ℚ` (exact real arithmetic); Python's
  `round(x, n)` is modelled as decimal round-half-to-even (`pyRound`).
* Python `int` is modelled as `ℤ`.
* A collaborator call that may raise an exception is modelled as a value
  of type `Except String α`; `Except.error e` stands for a raised
  exception whose `str()` is `e`.  The text-generation backend is the
  external `ContentGenerator` collaborator of the spec, so the stage and
  orchestrator functions are parameterised by it.
* Wall-clock timestamps (`datetime.now().isoformat()`) are abstracted as
  the constant `""`; no claim depends on them.
* Python's substring test `needle in haystack` is `strContains haystack
  needle`; `str.lower()` is `strToLower` (character-wise ASCII
  lowering, the behaviour of `str.lower` on the ASCII texts involved).
-/

/-- Values stored in the `input_data` / `output_data` dictionaries of an
`AgentAction` (strings, booleans, or Python `None`). -/
inductive PyVal where
  | s (v : String)
  | b (v : Bool)
  | none_
deriving DecidableEq, Repr

/-- `class AgentRole(Enum)`: agent roles in the system, in definition
order (Python enum iteration order). -/
inductive AgentRole where
  | RESEARCHER
  | ANALYST
  | COMPLIANCE
  | ORCHESTRATOR
deriving DecidableEq, Repr

/-- The `value` of each enum member. -/
def AgentRole.value : AgentRole → String
  | .RESEARCHER => "researcher"
  | .ANALYST => "analyst"
  | .COMPLIANCE => "compliance"
  | .ORCHESTRATOR => "orchestrator"

/-- Iteration order of `for role in AgentRole`. -/
def AgentRole.all : List AgentRole :=
  [.RESEARCHER, .ANALYST, .COMPLIANCE, .ORCHESTRATOR]

/-- `@dataclass AgentAction`: one audit-trail record. -/
structure AgentAction where
  timestamp : String
  agent_role : String
  action_type : String
  input_data : List (String × PyVal)
  output_data : List (String × PyVal)
  tokens_used : ℤ
  cost_usd : ℚ
  success : Bool
  error_message : Option String
deriving DecidableEq, Repr

/-- `class AuditTrail`: list of actions plus incrementally maintained
aggregates, as set up in `AuditTrail.__init__`. -/
structure AuditTrail where
  actions : List AgentAction
  total_cost : ℚ
  total_tokens : ℤ
deriving DecidableEq, Repr

/-- The state of a freshly constructed `AuditTrail()`. -/
def AuditTrail.empty : AuditTrail :=
  { actions := [], total_cost := 0, total_tokens := 0 }

/-- `AuditTrail.log_action`: append the action and bump the running
cost/token totals. -/
def AuditTrail.log_action (t : AuditTrail) (a : AgentAction) : AuditTrail :=
  { actions := t.actions ++ [a]
    total_cost := t.total_cost + a.cost_usd
    total_tokens := t.total_tokens + a.tokens_used }

/-- Round a rational to the nearest integer, ties to even (the rounding
mode of Python's builtin `round`). -/
def roundHalfToEven (q : ℚ) : ℤ :=
  let n : ℤ := q.floor
  let frac : ℚ := q - (n : ℚ)
  if frac < 1/2 then n
  else if 1/2 < frac then n + 1
  else if n % 2 = 0 then n else n + 1

/-- Python's `round(q, ndigits)` on the exact-rational model of floats. -/
def pyRound (q : ℚ) (ndigits : ℕ) : ℚ :=
  (roundHalfToEven (q * (10 : ℚ) ^ ndigits) : ℚ) / (10 : ℚ) ^ ndigits

/-- The summary dictionary returned by `AuditTrail.get_summary`. -/
structure Summary where
  total_actions : ℕ
  total_cost_usd : ℚ
  total_tokens : ℤ
  actions_by_agent : List (String × ℕ)
  success_rate : ℚ
deriving DecidableEq, Repr

/-- `AuditTrail.get_summary`: aggregate report over the recorded
actions.  `success_rate` is `0` for an empty trail (the
`if self.actions else 0` guard in the source). -/
def AuditTrail.get_summary (t : AuditTrail) : Summary :=
  { total_actions := t.actions.length
    total_cost_usd := pyRound t.total_cost 4
    total_tokens := t.total_tokens
    actions_by_agent := AgentRole.all.map (fun role =>
      (role.value, (t.actions.filter (fun a => a.agent_role == role.value)).length))
    success_rate :=
      if t.actions.isEmpty then 0
      else pyRound
        (((t.actions.filter (fun a => a.success)).length : ℚ) /
          (t.actions.length : ℚ) * 100) 2 }

/-- `needle in haystack` on character lists: does `needle` occur as a
contiguous run inside the haystack? -/
def listHasSub (needle : List Char) : List Char → Bool
  | [] => needle.isEmpty
  | c :: rest => needle.isPrefixOf (c :: rest) || listHasSub needle rest

/-- Python's substring membership `needle in haystack`. -/
def strContains (haystack needle : String) : Bool :=
  listHasSub needle.toList haystack.toList

/-- Python's `str.lower()` on ASCII text (character-wise lowering;
agrees with `String.toLower`, but defined by structural recursion over
the character list so that concrete instances evaluate). -/
def strToLower (s : String) : String :=
  String.mk (s.toList.map Char.toLower)

/-- `ComplianceCheck.RESTRICTED_KEYWORDS`, in source order. -/
def RESTRICTED_KEYWORDS : List String :=
  ["insider trading", "market manipulation", "money laundering",
   "guaranteed returns", "risk-free investment"]

/-- The advice indicators checked by `ComplianceCheck.validate_output`. -/
def ADVICE_INDICATORS : List String :=
  ["you should", "i recommend", "best investment"]

/-- `ComplianceCheck.validate_output`: returns `(is_compliant,
risk_message)`.  The `for keyword in RESTRICTED_KEYWORDS` loop that
returns on the first hit is `List.find?` over the table. -/
def ComplianceCheck.validate_output (output : String) : Bool × Option String :=
  let output_lower := strToLower output
  match RESTRICTED_KEYWORDS.find? (fun keyword => strContains output_lower keyword) with
  | some keyword =>
      (false, some ("Output contains restricted keyword: \x27" ++ keyword ++ "\x27"))
  | none =>
      let has_advice := ADVICE_INDICATORS.any (fun ind => strContains output_lower ind)
      let has_disclaimer :=
        strContains output_lower "not financial advice" ||
        strContains output_lower "for informational purposes"
      if has_advice && !has_disclaimer then
        (false, some "Output appears to provide financial advice without disclaimer")
      else
        (true, none)

/-- `ComplianceCheck.add_disclaimers`: append the fixed disclaimer block. -/
def ComplianceCheck.add_disclaimers (output : String) : String :=
  output ++ "\n\n--- DISCLAIMER ---\nThis information is for educational and informational purposes only. It does not constitute financial advice. Please consult with a qualified financial professional before making investment decisions."

/-- Counts maximal nonempty non-whitespace runs; `prevInWord` records
whether the previous character was inside a word. -/
def wordCountAux (prevInWord : Bool) : List Char → ℕ
  | [] => 0
  | c :: cs =>
      if c.isWhitespace then wordCountAux false cs
      else (if prevInWord then 0 else 1) + wordCountAux true cs

/-- Python's `len(s.split())`: number of maximal nonempty
whitespace-delimited chunks. -/
def wordCount (s : String) : ℕ :=
  wordCountAux false s.toList

/-- The external text-generation collaborator (`MockLLM` in the demo;
the spec's opaque `ContentGenerator` capability).  `Except.error e`
models the call raising an exception whose `str()` is `e`; `MockLLM`
itself never raises, but the stages' `try/except` boundary is defined
for an arbitrary collaborator. -/
structure ContentGenerator where
  generate_research : String → Except String String
  generate_analysis : String → String → Except String String

/-- The `AgentAction` built on the success path of
`ResearchAgent.research_company`. -/
def researchSuccessAction (company_name output : String) : AgentAction :=
  { timestamp := ""
    agent_role := AgentRole.RESEARCHER.value
    action_type := "company_research"
    input_data := [("company_name", PyVal.s company_name)]
    output_data := [("summary", PyVal.s (output.take 200 ++ "..."))]
    tokens_used := (wordCount output : ℤ)
    cost_usd := 0.002
    success := true
    error_message := none }

/-- The `AgentAction` built in the `except` branch of
`ResearchAgent.research_company`. -/
def researchFailureAction (company_name e : String) : AgentAction :=
  { timestamp := ""
    agent_role := AgentRole.RESEARCHER.value
    action_type := "company_research"
    input_data := [("company_name", PyVal.s company_name)]
    output_data := []
    tokens_used := 0
    cost_usd := 0
    success := false
    error_message := some e }

/-- `ResearchAgent.research_company`: call the generator inside the
`try/except` boundary, record exactly one action, and return the
generated text, or the in-band string `"Error during research: ..."`
when the collaborator raised. -/
def ResearchAgent.research_company (llm : ContentGenerator) (trail : AuditTrail)
    (company_name : String) : AuditTrail × String :=
  match llm.generate_research company_name with
  | .ok output =>
      (trail.log_action (researchSuccessAction company_name output), output)
  | .error e =>
      (trail.log_action (researchFailureAction company_name e),
        "Error during research: " ++ e)

/-- The `AgentAction` built on the success path of
`AnalysisAgent.analyze_investment_potential`. -/
def analysisSuccessAction (company_name output : String) : AgentAction :=
  { timestamp := ""
    agent_role := AgentRole.ANALYST.value
    action_type := "investment_analysis"
    input_data := [("company_name", PyVal.s company_name)]
    output_data := [("analysis", PyVal.s (output.take 200 ++ "..."))]
    tokens_used := (wordCount output : ℤ)
    cost_usd := 0.003
    success := true
    error_message := none }

/-- The `AgentAction` built in the `except` branch of
`AnalysisAgent.analyze_investment_potential`. -/
def analysisFailureAction (company_name e : String) : AgentAction :=
  { timestamp := ""
    agent_role := AgentRole.ANALYST.value
    action_type := "investment_analysis"
    input_data := [("company_name", PyVal.s company_name)]
    output_data := []
    tokens_used := 0
    cost_usd := 0
    success := false
    error_message := some e }

/-- `AnalysisAgent.analyze_investment_potential`: same shape as the
research stage, with the analysis generator, role `analyst` and unit
cost `0.003`. -/
def AnalysisAgent.analyze_investment_potential (llm : ContentGenerator)
    (trail : AuditTrail) (research_summary company_name : String) :
    AuditTrail × String :=
  match llm.generate_analysis company_name research_summary with
  | .ok output =>
      (trail.log_action (analysisSuccessAction company_name output), output)
  | .error e =>
      (trail.log_action (analysisFailureAction company_name e),
        "Error during analysis: " ++ e)

/-- The structured result dictionary returned by
`ComplianceAgent.review_output`. -/
structure ComplianceResult where
  compliant : Bool
  risk_message : Option String
  final_content : Option String
deriving DecidableEq, Repr

/-- `Optional[str]` rendered as a `PyVal` dictionary value. -/
def pyValOfOpt : Option String → PyVal
  | some s => PyVal.s s
  | none => PyVal.none_

/-- Python `f"...{x}"` rendering of an `Optional[str]`. -/
def pyStrOpt : Option String → String
  | some s => s
  | none => "None"

/-- The `AgentAction` recorded by a compliance review that completed
without an internal exception; note `success := true` regardless of the
compliance verdict. -/
def complianceReviewAction (content_type : String) (is_compliant : Bool)
    (risk_message : Option String) : AgentAction :=
  { timestamp := ""
    agent_role := AgentRole.COMPLIANCE.value
    action_type := "compliance_review"
    input_data := [("content_type", PyVal.s content_type)]
    output_data := [("compliant", PyVal.b is_compliant),
                    ("risk_message", pyValOfOpt risk_message)]
    tokens_used := 0
    cost_usd := 0
    success := true
    error_message := none }

/-- The `AgentAction` built in the `except` branch of
`ComplianceAgent.review_output`. -/
def complianceFailureAction (content_type e : String) : AgentAction :=
  { timestamp := ""
    agent_role := AgentRole.COMPLIANCE.value
    action_type := "compliance_review"
    input_data := [("content_type", PyVal.s content_type)]
    output_data := []
    tokens_used := 0
    cost_usd := 0
    success := false
    error_message := some e }

/-- `ComplianceAgent.review_output`, generalised over the validator
call's outcome so that the `except` branch of the source is reachable:
`validator content = Except.error e` models
`ComplianceCheck.validate_output(content)` raising an exception. -/
def ComplianceAgent.review_output_with
    (validator : String → Except String (Bool × Option String))
    (trail : AuditTrail) (content content_type : String) :
    AuditTrail × ComplianceResult :=
  match validator content with
  | .ok (is_compliant, risk_message) =>
      let result : ComplianceResult :=
        if is_compliant then
          { compliant := true, risk_message := none,
            final_content := some (ComplianceCheck.add_disclaimers content) }
        else
          { compliant := false, risk_message := risk_message,
            final_content := none }
      (trail.log_action (complianceReviewAction content_type is_compliant risk_message),
        result)
  | .error e =>
      (trail.log_action (complianceFailureAction content_type e),
        { compliant := false,
          risk_message := some ("Compliance check error: " ++ e),
          final_content := none })

/-- `ComplianceAgent.review_output` as executed in the source: the
validator is the pure `ComplianceCheck.validate_output`, which never
raises. -/
def ComplianceAgent.review_output (trail : AuditTrail)
    (content content_type : String) : AuditTrail × ComplianceResult :=
  ComplianceAgent.review_output_with
    (fun c => Except.ok (ComplianceCheck.validate_output c))
    trail content content_type

/-- The result dictionary of `AgentOrchestrator.research_investment`:
either the success payload or `{"success": False, "error": ...,
"audit_summary": ...}`.  `final_output` mirrors the `Optional[str]`
stored under `compliance_result["final_content"]`. -/
inductive PipelineResult where
  | success (company_name research_summary analysis : String)
      (final_output : Option String) (audit_summary : Summary)
  | failure (error : String) (audit_summary : Summary)
deriving DecidableEq, Repr

/-- `AgentOrchestrator.research_investment` for a freshly constructed
orchestrator (whose `__init__` creates an empty `AuditTrail`): run
research, analysis and compliance review in order, short-circuiting to a
failure payload when a stage result contains `"Error"` or the compliance
review rejects. -/
def AgentOrchestrator.research_investment (llm : ContentGenerator)
    (company_name : String) : PipelineResult :=
  let step1 := ResearchAgent.research_company llm AuditTrail.empty company_name
  if strContains step1.2 "Error" then
    .failure step1.2 step1.1.get_summary
  else
    let step2 := AnalysisAgent.analyze_investment_potential llm step1.1 step1.2 company_name
    if strContains step2.2 "Error" then
      .failure step2.2 step2.1.get_summary
    else
      let step3 := ComplianceAgent.review_output step2.1
        (step1.2 ++ "\n\n" ++ step2.2) "investment_research"
      if !step3.2.compliant then
        .failure ("Compliance check failed: " ++ pyStrOpt step3.2.risk_message)
          step3.1.get_summary
      else
        .success company_name step1.2 step2.2 step3.2.final_content
          step3.1.get_summary

/-- The disclaimer phrases of spec section 4.2 step 3. -/
def DISCLAIMER_PHRASES : List String :=
  ["not financial advice", "for informational purposes"]

/-- The validator as worded by the spec (section 4.2): lower-case the
text; return `NonCompliant` for the first restricted phrase in table
order that occurs as a substring (table order is the tie-break);
otherwise flag advice-like phrasing without any disclaimer phrase;
otherwise `Compliant`. -/
def validateSpec (text : String) : Bool × Option String :=
  let lowered := strToLower text
  match (RESTRICTED_KEYWORDS.filter (fun k => strContains lowered k)).head? with
  | some k => (false, some ("Output contains restricted keyword: \x27" ++ k ++ "\x27"))
  | none =>
      if ADVICE_INDICATORS.any (fun i => strContains lowered i) &&
          !(DISCLAIMER_PHRASES.any (fun d => strContains lowered d)) then
        (false, some "Output appears to provide financial advice without disclaimer")
      else
        (true, none)

/-- The shape the spec requires of an action recorded on a stage
failure: `success=false`, empty `output_data`, zero tokens and cost,
and `error_message` carrying the failure's description. -/
def failureActionSpec (a : AgentAction) (e : String) : Prop :=
  a.success = false ∧ a.output_data = [] ∧ a.tokens_used = 0 ∧
    a.cost_usd = 0 ∧ a.error_message = some e

/-- A collaborator that always fails, for the C7 witness. -/
def c7LLM : ContentGenerator :=
  { generate_research := fun _ => Except.error "boom"
    generate_analysis := fun _ _ => Except.error "boom" }

/-- An always-raising validator, for the C7 witness. -/
def c7Validator : String → Except String (Bool × Option String) :=
  fun _ => Except.error "boom"

/-- A research collaborator that fails, for the C1 witness. -/
def c1LLM : ContentGenerator :=
  { generate_research := fun _ => Except.error "api quota exceeded"
    generate_analysis := fun _ _ => Except.ok "unused" }

/-- A generator whose successful research output mentions `"Error"`,
for the C9 witness. -/
def c9LLM : ContentGenerator :=
  { generate_research := fun _ => Except.ok "Error rates in Q3 declined"
    generate_analysis := fun _ _ => Except.ok "unused" }

/-- A generator whose research text contains both `"Error"` and the
risk-free phrase, for the C8 counterexample. -/
def c8LLM : ContentGenerator :=
  { generate_research := fun _ => Except.ok "Error: this is a risk-free investment"
    generate_analysis := fun _ _ => Except.ok "ok" }

/-- A generator producing the risk-free phrase without the `"Error"`
signal, for the C8 witness. -/
def c8WitnessLLM : ContentGenerator :=
  { generate_research := fun _ => Except.ok "this is a risk-free investment"
    generate_analysis := fun _ _ => Except.ok "all fine" }

/-- A generator producing advice-like text without a disclaimer, for
the C10 witness. -/
def c10LLM : ContentGenerator :=
  { generate_research := fun _ => Except.ok "you should buy"
    generate_analysis := fun _ _ => Except.ok "fine text" }

/-! ### Substring lemmas -/

/-- The empty needle occurs in every haystack. -/
lemma listHasSub_nil (h : List Char) : listHasSub [] h = true := by
  cases h <;> simp [listHasSub, List.isPrefixOf]

/-- A needle that is a prefix of the haystack occurs in it. -/
lemma listHasSub_of_isPrefixOf {n l : List Char} (h : n.isPrefixOf l = true) :
    listHasSub n l = true := by
  cases l with
  | nil =>
      cases n with
      | nil => rfl
      | cons a as => simp [List.isPrefixOf] at h
  | cons c cs => simp [listHasSub, h]

/-- A list is a prefix of itself followed by anything. -/
lemma isPrefixOf_append_self (n m : List Char) : n.isPrefixOf (n ++ m) = true := by
  induction n with
  | nil => cases m <;> rfl
  | cons a as ih => simp [List.isPrefixOf, ih]

/-- Transitivity of `isPrefixOf`. -/
lemma isPrefixOf_trans {a b c : List Char} (h1 : a.isPrefixOf b = true)
    (h2 : b.isPrefixOf c = true) : a.isPrefixOf c = true := by
  induction a generalizing b c with
  | nil => cases c <;> rfl
  | cons x xs ih =>
      cases b with
      | nil => simp [List.isPrefixOf] at h1
      | cons y ys =>
          cases c with
          | nil => simp [List.isPrefixOf] at h2
          | cons z zs =>
              simp only [List.isPrefixOf, Bool.and_eq_true, beq_iff_eq] at h1 h2 ⊢
              exact ⟨h1.1.trans h2.1, ih h1.2 h2.2⟩

/-- Occurrence inside a prefix transfers to the whole list. -/
lemma listHasSub_of_sub_of_isPrefixOf {m p h : List Char}
    (h1 : listHasSub m p = true) (h2 : p.isPrefixOf h = true) :
    listHasSub m h = true := by
  induction p generalizing h with
  | nil =>
      cases m with
      | nil => exact listHasSub_nil h
      | cons a as => simp [listHasSub] at h1
  | cons x xs ih =>
      cases h with
      | nil => simp [List.isPrefixOf] at h2
      | cons z zs =>
          simp only [List.isPrefixOf, Bool.and_eq_true, beq_iff_eq] at h2
          rcases (by simpa [listHasSub] using h1 :
              m.isPrefixOf (x :: xs) = true ∨ listHasSub m xs = true) with hp | hp
          · have hfull : (x :: xs).isPrefixOf (z :: zs) = true := by
              simp [List.isPrefixOf, h2.1, h2.2]
            exact listHasSub_of_isPrefixOf (isPrefixOf_trans hp hfull)
          · have := ih hp h2.2
            simp [listHasSub, this]

/-- Transitivity of substring occurrence on character lists. -/
lemma listHasSub_trans {m p h : List Char} (h1 : listHasSub m p = true)
    (h2 : listHasSub p h = true) : listHasSub m h = true := by
  induction h with
  | nil =>
      cases p with
      | nil => exact h1
      | cons a as => simp [listHasSub] at h2
  | cons z zs ih =>
      rcases (by simpa [listHasSub] using h2 :
          p.isPrefixOf (z :: zs) = true ∨ listHasSub p zs = true) with hp | hp
      · exact listHasSub_of_sub_of_isPrefixOf h1 hp
      · have := ih hp
        simp [listHasSub, this]

/-- Transitivity of Python's `in`: if `mid` occurs in `hay` and `ndl`
occurs in `mid`, then `ndl` occurs in `hay`. -/
lemma strContains_trans {hay mid ndl : String}
    (h1 : strContains hay mid = true) (h2 : strContains mid ndl = true) :
    strContains hay ndl = true :=
  listHasSub_trans h2 h1

/-- `String.toList` distributes over append. -/
lemma toList_append_eq (s t : String) : (s ++ t).toList = s.toList ++ t.toList := rfl

/-- The in-band failure string of the research stage always contains
`"Error"`. -/
lemma strContains_error_during_research (e : String) :
    strContains ("Error during research: " ++ e) "Error" = true := by
  show listHasSub "Error".toList (("Error during research: " ++ e).toList) = true
  rw [toList_append_eq,
    show "Error during research: ".toList = "Error".toList ++ " during research: ".toList
      from by decide,
    List.append_assoc]
  exact listHasSub_of_isPrefixOf (isPrefixOf_append_self _ _)

/-- The in-band failure string of the analysis stage always contains
`"Error"`. -/
lemma strContains_error_during_analysis (e : String) :
    strContains ("Error during analysis: " ++ e) "Error" = true := by
  show listHasSub "Error".toList (("Error during analysis: " ++ e).toList) = true
  rw [toList_append_eq,
    show "Error during analysis: ".toList = "Error".toList ++ " during analysis: ".toList
      from by decide,
    List.append_assoc]
  exact listHasSub_of_isPrefixOf (isPrefixOf_append_self _ _)

/-! ### Ledger fold lemmas -/

/-- Folding `log_action` appends the recorded actions in order. -/
lemma foldl_log_action_actions (as : List AgentAction) (t : AuditTrail) :
    (as.foldl AuditTrail.log_action t).actions = t.actions ++ as := by
  induction as generalizing t with
  | nil => simp
  | cons a as ih => simp [List.foldl_cons, ih, AuditTrail.log_action]

/-- Folding `log_action` accumulates the exact sum of `cost_usd`. -/
lemma foldl_log_action_cost (as : List AgentAction) (t : AuditTrail) :
    (as.foldl AuditTrail.log_action t).total_cost =
      t.total_cost + (as.map (fun a => a.cost_usd)).sum := by
  induction as generalizing t with
  | nil => simp
  | cons a as ih => simp [List.foldl_cons, ih, AuditTrail.log_action, add_assoc]

/-- Folding `log_action` accumulates the exact sum of `tokens_used`. -/
lemma foldl_log_action_tokens (as : List AgentAction) (t : AuditTrail) :
    (as.foldl AuditTrail.log_action t).total_tokens =
      t.total_tokens + (as.map (fun a => a.tokens_used)).sum := by
  induction as generalizing t with
  | nil => simp
  | cons a as ih => simp [List.foldl_cons, ih, AuditTrail.log_action, add_assoc]

/-! ### Role-count lemma -/

/-- The length of a filtered cons, split on the head's test. -/
lemma filter_cons_len (p : AgentAction → Bool) (a : AgentAction) (as : List AgentAction) :
    (List.filter p (a :: as)).length = (if p a then 1 else 0) + (List.filter p as).length := by
  by_cases hp : p a
  · simp [List.filter_cons, hp]
    omega
  · simp [List.filter_cons, hp]

/-- When every recorded action carries one of the four enum role
strings, the four per-role filter counts partition the action list. -/
lemma count_roles (as : List AgentAction)
    (h : ∀ a ∈ as, a.agent_role = "researcher" ∨ a.agent_role = "analyst" ∨
      a.agent_role = "compliance" ∨ a.agent_role = "orchestrator") :
    (as.filter (fun a => a.agent_role == "researcher")).length +
    (as.filter (fun a => a.agent_role == "analyst")).length +
    (as.filter (fun a => a.agent_role == "compliance")).length +
    (as.filter (fun a => a.agent_role == "orchestrator")).length = as.length := by
  induction as with
  | nil => rfl
  | cons a as ih =>
      have ha := h a (by simp)
      have ih' := ih (fun x hx => h x (by simp [hx]))
      rw [filter_cons_len, filter_cons_len, filter_cons_len, filter_cons_len]
      rcases ha with h1 | h1 | h1 | h1 <;> rw [h1] <;>
        simp [
          show (("researcher" : String) == "researcher") = true from by decide,
          show (("researcher" : String) == "analyst") = false from by decide,
          show (("researcher" : String) == "compliance") = false from by decide,
          show (("researcher" : String) == "orchestrator") = false from by decide,
          show (("analyst" : String) == "researcher") = false from by decide,
          show (("analyst" : String) == "analyst") = true from by decide,
          show (("analyst" : String) == "compliance") = false from by decide,
          show (("analyst" : String) == "orchestrator") = false from by decide,
          show (("compliance" : String) == "researcher") = false from by decide,
          show (("compliance" : String) == "analyst") = false from by decide,
          show (("compliance" : String) == "compliance") = true from by decide,
          show (("compliance" : String) == "orchestrator") = false from by decide,
          show (("orchestrator" : String) == "researcher") = false from by decide,
          show (("orchestrator" : String) == "analyst") = false from by decide,
          show (("orchestrator" : String) == "compliance") = false from by decide,
          show (("orchestrator" : String) == "orchestrator") = true from by decide,
          if_true, if_false, List.length_cons] <;>
        omega

/-- C2: for any sequence of `log_action` calls on a fresh ledger,
`get_summary` reports the number of calls, the 4-decimal rounding of the
exact cost sum, and the exact token sum. -/
theorem claim_C2_summary_totals (as : List AgentAction) :
    ((as.foldl AuditTrail.log_action AuditTrail.empty).get_summary).total_actions
        = as.length ∧
    ((as.foldl AuditTrail.log_action AuditTrail.empty).get_summary).total_cost_usd
        = pyRound ((as.map (fun a => a.cost_usd)).sum) 4 ∧
    ((as.foldl AuditTrail.log_action AuditTrail.empty).get_summary).total_tokens
        = (as.map (fun a => a.tokens_used)).sum := by
  refine ⟨?_, ?_, ?_⟩ <;>
    simp [AuditTrail.get_summary, AuditTrail.empty, foldl_log_action_actions,
      foldl_log_action_cost, foldl_log_action_tokens]

/-- C3: `success_rate` is 0 on an empty ledger, and otherwise 100 times
the success count over the total count, rounded to 2 decimals. -/
theorem claim_C3_success_rate (t : AuditTrail) :
    t.get_summary.success_rate =
      if t.actions.length = 0 then 0
      else pyRound
        (100 * ((t.actions.filter (fun a => a.success)).length : ℚ) /
          (t.actions.length : ℚ)) 2 := by
  by_cases h : t.actions = []
  · simp [AuditTrail.get_summary, h]
  · have hlen : t.actions.length ≠ 0 := by
      simpa [List.length_eq_zero] using h
    simp only [AuditTrail.get_summary, List.isEmpty_iff, h, if_false, hlen, ite_false]
    congr 1
    ring

/-- C4: for any sequence of `record` calls whose actions carry roles
from the fixed enum (the `agent_role` type of the spec's data model),
`actions_by_agent` lists all four roles as keys in enum order, every
count is nonnegative, and the counts sum to `total_actions`. -/
theorem claim_C4_actions_by_agent (as : List AgentAction)
    (h : ∀ a ∈ as, a.agent_role ∈ AgentRole.all.map AgentRole.value) :
    (((as.foldl AuditTrail.log_action AuditTrail.empty).get_summary).actions_by_agent.map
        Prod.fst = ["researcher", "analyst", "compliance", "orchestrator"]) ∧
    (∀ p ∈ ((as.foldl AuditTrail.log_action AuditTrail.empty).get_summary).actions_by_agent,
        0 ≤ p.2) ∧
    ((((as.foldl AuditTrail.log_action AuditTrail.empty).get_summary).actions_by_agent.map
        Prod.snd).sum =
      ((as.foldl AuditTrail.log_action AuditTrail.empty).get_summary).total_actions) := by
  have h' : ∀ a ∈ as, a.agent_role = "researcher" ∨ a.agent_role = "analyst" ∨
      a.agent_role = "compliance" ∨ a.agent_role = "orchestrator" := by
    intro a ha
    simpa [AgentRole.all, AgentRole.value] using h a ha
  refine ⟨?_, ?_, ?_⟩
  · simp [AuditTrail.get_summary, AgentRole.all, AgentRole.value]
  · intro p _
    exact Nat.zero_le _
  · simp only [AuditTrail.get_summary, AgentRole.all, AgentRole.value,
      foldl_log_action_actions, AuditTrail.empty, List.nil_append, List.map_cons,
      List.map_nil, List.sum_cons, List.sum_nil]
    have := count_roles as h'
    omega

/-- Witness for C4 at a concrete one-action ledger. -/
theorem claim_C4_witness :
    (∀ a ∈ [researchSuccessAction "Acme" "some text"],
        a.agent_role ∈ AgentRole.all.map AgentRole.value) ∧
    ((([researchSuccessAction "Acme" "some text"].foldl AuditTrail.log_action
        AuditTrail.empty).get_summary).actions_by_agent.map Prod.fst =
      ["researcher", "analyst", "compliance", "orchestrator"]) ∧
    ((([researchSuccessAction "Acme" "some text"].foldl AuditTrail.log_action
        AuditTrail.empty).get_summary).actions_by_agent.map Prod.snd).sum =
      (([researchSuccessAction "Acme" "some text"].foldl AuditTrail.log_action
        AuditTrail.empty).get_summary).total_actions := by
  have hmem : ∀ a ∈ [researchSuccessAction "Acme" "some text"],
      a.agent_role ∈ AgentRole.all.map AgentRole.value := by
    simp [researchSuccessAction, AgentRole.all, AgentRole.value]
  have h := claim_C4_actions_by_agent [researchSuccessAction "Acme" "some text"] hmem
  exact ⟨hmem, h.1, h.2.2⟩

/-! ### Compliance validator: refinement against the spec wording -/

/-- `find?` returns the head of the filtered list. -/
lemma find?_eq_filter_head? (p : String → Bool) (l : List String) :
    l.find? p = (l.filter p).head? := by
  induction l with
  | nil => rfl
  | cons a as ih =>
      by_cases h : p a
      · rw [List.find?_cons_of_pos _ h, List.filter_cons_of_pos h]
        rfl
      · rw [List.find?_cons_of_neg _ h, List.filter_cons_of_neg h, ih]

/-- C5: the source validator agrees with the spec's step-by-step
description of `validate` on every input. -/
theorem claim_C5_validate_refines_spec (output : String) :
    ComplianceCheck.validate_output output = validateSpec output := by
  unfold ComplianceCheck.validate_output validateSpec
  simp only [find?_eq_filter_head?, ADVICE_INDICATORS, DISCLAIMER_PHRASES,
    List.any_cons, List.any_nil, Bool.or_false]

/-- Counterexample to C6 as stated: this input contains "guaranteed
returns", yet the validator's reason cites "insider trading" (earlier in
table order) and does not name "guaranteed returns". -/
theorem claim_C6_counterexample :
    strContains (strToLower "insider trading brings guaranteed returns")
      "guaranteed returns" = true ∧
    ComplianceCheck.validate_output "insider trading brings guaranteed returns" =
      (false, some "Output contains restricted keyword: \x27insider trading\x27") ∧
    strContains "Output contains restricted keyword: \x27insider trading\x27"
      "guaranteed returns" = false := by
  refine ⟨by decide, by decide, by decide⟩

/-- C6 (amended): for every text containing "guaranteed returns" in
any letter case the validator returns NonCompliant, unconditionally;
the reason names "guaranteed returns" provided no restricted phrase
earlier in table order occurs in the text. -/
theorem claim_C6_guaranteed_returns (text : String)
    (hgr : strContains (strToLower text) "guaranteed returns" = true) :
    (ComplianceCheck.validate_output text).1 = false ∧
    (strContains (strToLower text) "insider trading" = false →
     strContains (strToLower text) "market manipulation" = false →
     strContains (strToLower text) "money laundering" = false →
     ComplianceCheck.validate_output text =
       (false, some "Output contains restricted keyword: \x27guaranteed returns\x27")) := by
  constructor
  · unfold ComplianceCheck.validate_output
    cases h1 : strContains (strToLower text) "insider trading" <;>
    cases h2 : strContains (strToLower text) "market manipulation" <;>
    cases h3 : strContains (strToLower text) "money laundering" <;>
      simp [RESTRICTED_KEYWORDS, List.find?_cons, h1, h2, h3, hgr]
  · intro h1 h2 h3
    unfold ComplianceCheck.validate_output
    simp [RESTRICTED_KEYWORDS, List.find?_cons, h1, h2, h3, hgr]

/-- Witness for C6 (amended): an upper-case input exercises both the
unconditional NonCompliant verdict and, with the earlier-table phrases
absent, the reason naming "guaranteed returns". -/
theorem claim_C6_witness :
    strContains (strToLower "our fund has GUARANTEED RETURNS") "guaranteed returns" = true ∧
    (ComplianceCheck.validate_output "our fund has GUARANTEED RETURNS").1 = false ∧
    ComplianceCheck.validate_output "our fund has GUARANTEED RETURNS" =
      (false, some "Output contains restricted keyword: \x27guaranteed returns\x27") := by
  have h := claim_C6_guaranteed_returns "our fund has GUARANTEED RETURNS" (by decide)
  exact ⟨by decide, h.1, h.2 (by decide) (by decide) (by decide)⟩

/-! ### Stage failure-boundary claims -/

/-- C7: every stage invocation appends exactly one action to the
ledger, for any collaborator outcome; and when the collaborator fails,
the recorded action has the failure shape and the stage returns an
in-band failure value instead of raising. -/
theorem claim_C7_stage_boundary (llm : ContentGenerator)
    (validator : String → Except String (Bool × Option String))
    (t1 t2 t3 : AuditTrail) (company rs content ct e1 e2 e3 : String) :
    ((∃ a, (ResearchAgent.research_company llm t1 company).1.actions =
        t1.actions ++ [a]) ∧
     (∃ a, (AnalysisAgent.analyze_investment_potential llm t2 rs company).1.actions =
        t2.actions ++ [a]) ∧
     (∃ a, (ComplianceAgent.review_output_with validator t3 content ct).1.actions =
        t3.actions ++ [a])) ∧
    (llm.generate_research company = Except.error e1 →
      ResearchAgent.research_company llm t1 company =
        (t1.log_action (researchFailureAction company e1),
          "Error during research: " ++ e1) ∧
      failureActionSpec (researchFailureAction company e1) e1) ∧
    (llm.generate_analysis company rs = Except.error e2 →
      AnalysisAgent.analyze_investment_potential llm t2 rs company =
        (t2.log_action (analysisFailureAction company e2),
          "Error during analysis: " ++ e2) ∧
      failureActionSpec (analysisFailureAction company e2) e2) ∧
    (validator content = Except.error e3 →
      ComplianceAgent.review_output_with validator t3 content ct =
        (t3.log_action (complianceFailureAction ct e3),
          { compliant := false,
            risk_message := some ("Compliance check error: " ++ e3),
            final_content := none }) ∧
      failureActionSpec (complianceFailureAction ct e3) e3) := by
  refine ⟨⟨?_, ?_, ?_⟩, ?_, ?_, ?_⟩
  · cases hg : llm.generate_research company with
    | ok out =>
        exact ⟨researchSuccessAction company out,
          by simp [ResearchAgent.research_company, hg, AuditTrail.log_action]⟩
    | error e =>
        exact ⟨researchFailureAction company e,
          by simp [ResearchAgent.research_company, hg, AuditTrail.log_action]⟩
  · cases hg : llm.generate_analysis company rs with
    | ok out =>
        exact ⟨analysisSuccessAction company out,
          by simp [AnalysisAgent.analyze_investment_potential, hg, AuditTrail.log_action]⟩
    | error e =>
        exact ⟨analysisFailureAction company e,
          by simp [AnalysisAgent.analyze_investment_potential, hg, AuditTrail.log_action]⟩
  · cases hv : validator content with
    | error e =>
        exact ⟨complianceFailureAction ct e,
          by simp [ComplianceAgent.review_output_with, hv, AuditTrail.log_action]⟩
    | ok p =>
        obtain ⟨b, m⟩ := p
        exact ⟨complianceReviewAction ct b m,
          by simp [ComplianceAgent.review_output_with, hv, AuditTrail.log_action]⟩
  · intro h
    refine ⟨by simp [ResearchAgent.research_company, h], ?_⟩
    exact ⟨rfl, rfl, rfl, rfl, rfl⟩
  · intro h
    refine ⟨by simp [AnalysisAgent.analyze_investment_potential, h], ?_⟩
    exact ⟨rfl, rfl, rfl, rfl, rfl⟩
  · intro h
    refine ⟨by simp [ComplianceAgent.review_output_with, h], ?_⟩
    exact ⟨rfl, rfl, rfl, rfl, rfl⟩

/-- Witness for C7 at concrete failing collaborators. -/
theorem claim_C7_witness :
    c7LLM.generate_research "Acme" = Except.error "boom" ∧
    c7LLM.generate_analysis "Acme" "rs" = Except.error "boom" ∧
    c7Validator "content" = Except.error "boom" ∧
    (ResearchAgent.research_company c7LLM AuditTrail.empty "Acme" =
      (AuditTrail.empty.log_action (researchFailureAction "Acme" "boom"),
        "Error during research: " ++ "boom") ∧
      failureActionSpec (researchFailureAction "Acme" "boom") "boom") ∧
    (AnalysisAgent.analyze_investment_potential c7LLM AuditTrail.empty "rs" "Acme" =
      (AuditTrail.empty.log_action (analysisFailureAction "Acme" "boom"),
        "Error during analysis: " ++ "boom") ∧
      failureActionSpec (analysisFailureAction "Acme" "boom") "boom") ∧
    (ComplianceAgent.review_output_with c7Validator AuditTrail.empty "content" "ct" =
      (AuditTrail.empty.log_action (complianceFailureAction "ct" "boom"),
        { compliant := false,
          risk_message := some ("Compliance check error: " ++ "boom"),
          final_content := none }) ∧
      failureActionSpec (complianceFailureAction "ct" "boom") "boom") := by
  have h := claim_C7_stage_boundary c7LLM c7Validator
    AuditTrail.empty AuditTrail.empty AuditTrail.empty
    "Acme" "rs" "content" "ct" "boom" "boom" "boom"
  exact ⟨rfl, rfl, rfl, h.2.1 rfl, h.2.2.1 rfl, h.2.2.2 rfl⟩

/-! ### Orchestrator claims -/

/-- C1: when the research collaborator fails, the run returns the
failure payload carrying the stage's error string and the audit
snapshot; exactly one action is in the ledger, and the per-role counts
show that the analysis and compliance stages recorded nothing. -/
theorem claim_C1_research_failure (llm : ContentGenerator) (company_name e : String)
    (h : llm.generate_research company_name = Except.error e) :
    AgentOrchestrator.research_investment llm company_name =
      PipelineResult.failure ("Error during research: " ++ e)
        ((AuditTrail.empty.log_action (researchFailureAction company_name e)).get_summary) ∧
    ((AuditTrail.empty.log_action
        (researchFailureAction company_name e)).get_summary).total_actions = 1 ∧
    ((AuditTrail.empty.log_action
        (researchFailureAction company_name e)).get_summary).actions_by_agent =
      [("researcher", 1), ("analyst", 0), ("compliance", 0), ("orchestrator", 0)] := by
  refine ⟨?_, rfl, ?_⟩
  · unfold AgentOrchestrator.research_investment ResearchAgent.research_company
    rw [h]
    simp [strContains_error_during_research]
  · simp [AuditTrail.get_summary, AuditTrail.empty, AuditTrail.log_action,
      researchFailureAction, AgentRole.all, AgentRole.value, List.filter]

/-- Witness for C1 at a concrete failing generator. -/
theorem claim_C1_witness :
    c1LLM.generate_research "Acme" = Except.error "api quota exceeded" ∧
    AgentOrchestrator.research_investment c1LLM "Acme" =
      PipelineResult.failure ("Error during research: " ++ "api quota exceeded")
        ((AuditTrail.empty.log_action
          (researchFailureAction "Acme" "api quota exceeded")).get_summary) := by
  have h := claim_C1_research_failure c1LLM "Acme" "api quota exceeded" rfl
  exact ⟨rfl, h.1⟩

/-- C9: a stage result string containing `"Error"` is treated as a
stage failure even when the generation succeeded: the run returns a
failure payload carrying that very string, although the ledger holds
the stage's `success=true` action (1 action for research, 2 for
analysis). -/
theorem claim_C9_error_substring_sniffing (llm : ContentGenerator)
    (company r a : String)
    (hr : llm.generate_research company = Except.ok r) :
    (strContains r "Error" = true →
      AgentOrchestrator.research_investment llm company =
        PipelineResult.failure r
          ((AuditTrail.empty.log_action (researchSuccessAction company r)).get_summary) ∧
      (researchSuccessAction company r).success = true ∧
      ((AuditTrail.empty.log_action
          (researchSuccessAction company r)).get_summary).total_actions = 1) ∧
    (strContains r "Error" = false →
      llm.generate_analysis company r = Except.ok a →
      strContains a "Error" = true →
      AgentOrchestrator.research_investment llm company =
        PipelineResult.failure a
          (((AuditTrail.empty.log_action (researchSuccessAction company r)).log_action
            (analysisSuccessAction company a)).get_summary) ∧
      (analysisSuccessAction company a).success = true ∧
      (((AuditTrail.empty.log_action (researchSuccessAction company r)).log_action
          (analysisSuccessAction company a)).get_summary).total_actions = 2) := by
  constructor
  · intro hE
    refine ⟨?_, rfl, rfl⟩
    unfold AgentOrchestrator.research_investment ResearchAgent.research_company
    rw [hr]
    simp [hE]
  · intro hE ha hEa
    refine ⟨?_, rfl, rfl⟩
    unfold AgentOrchestrator.research_investment ResearchAgent.research_company
      AnalysisAgent.analyze_investment_potential
    rw [hr]
    simp only [hE]
    rw [ha]
    simp [hEa]

/-- Witness for C9: a successful generation mentioning `"Error"` makes
the run fail while the recorded action reports success. -/
theorem claim_C9_witness :
    c9LLM.generate_research "Acme" = Except.ok "Error rates in Q3 declined" ∧
    strContains "Error rates in Q3 declined" "Error" = true ∧
    AgentOrchestrator.research_investment c9LLM "Acme" =
      PipelineResult.failure "Error rates in Q3 declined"
        ((AuditTrail.empty.log_action
          (researchSuccessAction "Acme" "Error rates in Q3 declined")).get_summary) ∧
    (researchSuccessAction "Acme" "Error rates in Q3 declined").success = true := by
  have h := (claim_C9_error_substring_sniffing c9LLM "Acme"
    "Error rates in Q3 declined" "unused" rfl).1 (by decide)
  exact ⟨rfl, by decide, h.1, h.2.1⟩

/-- Counterexample to C8 as stated: the (would-be) combined
research+analysis text contains "this is a risk-free investment", yet
the run short-circuits on the `"Error"` substring check after exactly 1
recorded action, not 3, and the compliance stage never runs. -/
theorem claim_C8_counterexample :
    strContains (strToLower ("Error: this is a risk-free investment" ++ "\n\n" ++ "ok"))
      "this is a risk-free investment" = true ∧
    AgentOrchestrator.research_investment c8LLM "Acme" =
      PipelineResult.failure "Error: this is a risk-free investment"
        ((AuditTrail.empty.log_action
          (researchSuccessAction "Acme" "Error: this is a risk-free investment")).get_summary) ∧
    ((AuditTrail.empty.log_action
        (researchSuccessAction "Acme" "Error: this is a risk-free investment")).get_summary).total_actions = 1 := by
  exact ⟨by decide, rfl, rfl⟩

/-- C8 (amended): when both stage outputs avoid the `"Error"`
short-circuit signal, the combined text contains "this is a risk-free
investment", and no restricted phrase earlier in table order occurs,
the run fails at the compliance stage citing "risk-free investment",
with exactly 3 recorded actions and no success payload (hence no
disclaimer-appended content is released). -/
theorem claim_C8_compliance_rejection (llm : ContentGenerator) (company r a : String)
    (hr : llm.generate_research company = Except.ok r)
    (hnr : strContains r "Error" = false)
    (ha : llm.generate_analysis company r = Except.ok a)
    (hna : strContains a "Error" = false)
    (hphrase : strContains (strToLower (r ++ "\n\n" ++ a))
      "this is a risk-free investment" = true)
    (h1 : strContains (strToLower (r ++ "\n\n" ++ a)) "insider trading" = false)
    (h2 : strContains (strToLower (r ++ "\n\n" ++ a)) "market manipulation" = false)
    (h3 : strContains (strToLower (r ++ "\n\n" ++ a)) "money laundering" = false)
    (h4 : strContains (strToLower (r ++ "\n\n" ++ a)) "guaranteed returns" = false) :
    AgentOrchestrator.research_investment llm company =
      PipelineResult.failure
        ("Compliance check failed: " ++
          "Output contains restricted keyword: \x27risk-free investment\x27")
        ((((AuditTrail.empty.log_action (researchSuccessAction company r)).log_action
            (analysisSuccessAction company a)).log_action
          (complianceReviewAction "investment_research" false
            (some "Output contains restricted keyword: \x27risk-free investment\x27"))).get_summary) ∧
    strContains ("Compliance check failed: " ++
        "Output contains restricted keyword: \x27risk-free investment\x27")
      "risk-free investment" = true ∧
    ((((AuditTrail.empty.log_action (researchSuccessAction company r)).log_action
        (analysisSuccessAction company a)).log_action
      (complianceReviewAction "investment_research" false
        (some "Output contains restricted keyword: \x27risk-free investment\x27"))).get_summary).total_actions = 3 ∧
    (∀ cn rs an fo s, AgentOrchestrator.research_investment llm company ≠
      PipelineResult.success cn rs an fo s) := by
  have h5 : strContains (strToLower (r ++ "\n\n" ++ a)) "risk-free investment" = true :=
    strContains_trans hphrase (by decide)
  have hvalid : ComplianceCheck.validate_output (r ++ "\n\n" ++ a) =
      (false, some "Output contains restricted keyword: \x27risk-free investment\x27") := by
    unfold ComplianceCheck.validate_output
    simp [RESTRICTED_KEYWORDS, List.find?_cons, h1, h2, h3, h4, h5]
  have hmain : AgentOrchestrator.research_investment llm company =
      PipelineResult.failure
        ("Compliance check failed: " ++
          "Output contains restricted keyword: \x27risk-free investment\x27")
        ((((AuditTrail.empty.log_action (researchSuccessAction company r)).log_action
            (analysisSuccessAction company a)).log_action
          (complianceReviewAction "investment_research" false
            (some "Output contains restricted keyword: \x27risk-free investment\x27"))).get_summary) := by
    unfold AgentOrchestrator.research_investment ResearchAgent.research_company
      AnalysisAgent.analyze_investment_potential
    rw [hr]
    simp only [hnr]
    rw [ha]
    simp only [hna]
    simp [ComplianceAgent.review_output, ComplianceAgent.review_output_with,
      hvalid, pyStrOpt]
  refine ⟨hmain, by decide, rfl, ?_⟩
  intro cn rs an fo s hcontra
  rw [hmain] at hcontra
  exact PipelineResult.noConfusion hcontra

/-- Witness for C8 (amended) at a concrete generator. -/
theorem claim_C8_witness :
    c8WitnessLLM.generate_research "Acme" = Except.ok "this is a risk-free investment" ∧
    strContains (strToLower ("this is a risk-free investment" ++ "\n\n" ++ "all fine"))
      "this is a risk-free investment" = true ∧
    AgentOrchestrator.research_investment c8WitnessLLM "Acme" =
      PipelineResult.failure
        ("Compliance check failed: " ++
          "Output contains restricted keyword: \x27risk-free investment\x27")
        ((((AuditTrail.empty.log_action
              (researchSuccessAction "Acme" "this is a risk-free investment")).log_action
            (analysisSuccessAction "Acme" "all fine")).log_action
          (complianceReviewAction "investment_research" false
            (some "Output contains restricted keyword: \x27risk-free investment\x27"))).get_summary) ∧
    ((((AuditTrail.empty.log_action
          (researchSuccessAction "Acme" "this is a risk-free investment")).log_action
        (analysisSuccessAction "Acme" "all fine")).log_action
      (complianceReviewAction "investment_research" false
        (some "Output contains restricted keyword: \x27risk-free investment\x27"))).get_summary).total_actions = 3 := by
  have h := claim_C8_compliance_rejection c8WitnessLLM "Acme"
    "this is a risk-free investment" "all fine"
    rfl (by decide) rfl (by decide) (by decide) (by decide) (by decide) (by decide) (by decide)
  exact ⟨rfl, by decide, h.1, h.2.2.1⟩

/-- `Rat.floor` agrees with the floor of the `FloorRing` instance. -/
lemma ratFloor_eq_intFloor (q : ℚ) : Rat.floor q = ⌊q⌋ := by
  rw [Rat.floor_def', Rat.floor_def]

/-- Banker's rounding fixes integers. -/
lemma roundHalfToEven_intCast (z : ℤ) : roundHalfToEven ((z : ℤ) : ℚ) = z := by
  unfold roundHalfToEven
  rw [ratFloor_eq_intFloor]
  norm_num

/-- `round(100.0, 2)` is `100`. -/
lemma pyRound_100_2 : pyRound 100 2 = 100 := by
  unfold pyRound
  rw [show (100 : ℚ) * 10 ^ 2 = ((10000 : ℤ) : ℚ) by norm_num, roundHalfToEven_intCast]
  norm_num

/-- C10: a compliance review that completes without an internal
exception records `success=true` regardless of the verdict; hence a run
rejected by compliance holds three `success=true` actions and reports
`success_rate = 100`. -/
theorem claim_C10_rejection_counts_as_success (llm : ContentGenerator)
    (company r a : String)
    (hr : llm.generate_research company = Except.ok r)
    (hnr : strContains r "Error" = false)
    (ha : llm.generate_analysis company r = Except.ok a)
    (hna : strContains a "Error" = false)
    (hnc : (ComplianceCheck.validate_output (r ++ "\n\n" ++ a)).1 = false) :
    (∀ trail content ct,
      (ComplianceAgent.review_output trail content ct).1.actions =
        trail.actions ++ [complianceReviewAction ct
          (ComplianceCheck.validate_output content).1
          (ComplianceCheck.validate_output content).2] ∧
      (complianceReviewAction ct (ComplianceCheck.validate_output content).1
        (ComplianceCheck.validate_output content).2).success = true) ∧
    AgentOrchestrator.research_investment llm company =
      PipelineResult.failure
        ("Compliance check failed: " ++
          pyStrOpt (ComplianceCheck.validate_output (r ++ "\n\n" ++ a)).2)
        ((((AuditTrail.empty.log_action (researchSuccessAction company r)).log_action
            (analysisSuccessAction company a)).log_action
          (complianceReviewAction "investment_research" false
            (ComplianceCheck.validate_output (r ++ "\n\n" ++ a)).2)).get_summary) ∧
    ((((AuditTrail.empty.log_action (researchSuccessAction company r)).log_action
        (analysisSuccessAction company a)).log_action
      (complianceReviewAction "investment_research" false
        (ComplianceCheck.validate_output (r ++ "\n\n" ++ a)).2)).get_summary).total_actions = 3 ∧
    (∀ act ∈ (((AuditTrail.empty.log_action (researchSuccessAction company r)).log_action
        (analysisSuccessAction company a)).log_action
      (complianceReviewAction "investment_research" false
        (ComplianceCheck.validate_output (r ++ "\n\n" ++ a)).2)).actions,
      act.success = true) ∧
    ((((AuditTrail.empty.log_action (researchSuccessAction company r)).log_action
        (analysisSuccessAction company a)).log_action
      (complianceReviewAction "investment_research" false
        (ComplianceCheck.validate_output (r ++ "\n\n" ++ a)).2)).get_summary).success_rate = 100 := by
  refine ⟨?_, ?_, rfl, ?_, ?_⟩
  · intro trail content ct
    rcases hv : ComplianceCheck.validate_output content with ⟨b, m⟩
    constructor
    · simp [ComplianceAgent.review_output, ComplianceAgent.review_output_with, hv,
        AuditTrail.log_action]
    · rfl
  · rcases hv : ComplianceCheck.validate_output (r ++ "\n\n" ++ a) with ⟨b, m⟩
    rw [hv] at hnc
    simp only at hnc
    subst hnc
    unfold AgentOrchestrator.research_investment ResearchAgent.research_company
      AnalysisAgent.analyze_investment_potential
    rw [hr]
    simp only [hnr]
    rw [ha]
    simp only [hna]
    simp [ComplianceAgent.review_output, ComplianceAgent.review_output_with, hv]
  · intro act hact
    simp only [AuditTrail.log_action, AuditTrail.empty, List.nil_append,
      List.append_assoc, List.cons_append, List.nil_append, List.mem_cons,
      List.mem_singleton, List.mem_append] at hact
    rcases hact with h | h | h | h
    · rw [h]; rfl
    · rw [h]; rfl
    · rw [h]; rfl
    · cases h
  · simp [AuditTrail.get_summary, AuditTrail.log_action, AuditTrail.empty,
      researchSuccessAction, analysisSuccessAction, complianceReviewAction,
      List.filter]
    exact pyRound_100_2

/-- Witness for C10 at a concrete advice-without-disclaimer run. -/
theorem claim_C10_witness :
    (ComplianceCheck.validate_output ("you should buy" ++ "\n\n" ++ "fine text")).1 = false ∧
    AgentOrchestrator.research_investment c10LLM "Acme" =
      PipelineResult.failure
        ("Compliance check failed: " ++
          pyStrOpt (ComplianceCheck.validate_output
            ("you should buy" ++ "\n\n" ++ "fine text")).2)
        ((((AuditTrail.empty.log_action (researchSuccessAction "Acme" "you should buy")).log_action
            (analysisSuccessAction "Acme" "fine text")).log_action
          (complianceReviewAction "investment_research" false
            (ComplianceCheck.validate_output
              ("you should buy" ++ "\n\n" ++ "fine text")).2)).get_summary) ∧
    ((((AuditTrail.empty.log_action (researchSuccessAction "Acme" "you should buy")).log_action
        (analysisSuccessAction "Acme" "fine text")).log_action
      (complianceReviewAction "investment_research" false
        (ComplianceCheck.validate_output
          ("you should buy" ++ "\n\n" ++ "fine text")).2)).get_summary).success_rate = 100 := by
  have h := claim_C10_rejection_counts_as_success c10LLM "Acme" "you should buy" "fine text"
    rfl (by decide) rfl (by decide) (by decide)
  exact ⟨by decide, h.2.1, h.2.2.2.2⟩
